import Mathlib

/-!
A verification development for the AST core of `src/core/ast.cpp` (pyston):
the node-kind data model, the visitor dispatch protocol (`accept`), the
operator-semantics resolver (`getOpSymbol`, `getOpName`, `getInplaceOpName`,
`getReverseCmpOp`, `getReverseOpName`), the scope-aware linearization
(`FlattenVisitor` / `flatten`) and the debug renderer (`ASTPrintVisitor`).

Modelling conventions:
- C++ `llvm::StringRef` / `BoxedString*` / `InternedString` are modelled as
  `String`; `getStaticString` and `internStringImmortal` are identity
  operations on the string contents, so they disappear in the model.
- A function that can reach a fatal abort (`abort()` after the
  `Unknown op type` message, or the failed `assert`s at the top of
  `getOpName`) is modelled as returning `Option`, with `none` for the
  aborting branches.
- Visitor state (the mutated fields of a C++ visitor object) is modelled by
  explicit state passing: a handler takes the node and the state and returns
  the new state together with the returned `bool`.
-/

namespace pyston

/-- Modelled from the spec: the closed tag enumeration `AST_TYPE::AST_TYPE`
is declared in `core/ast.h`, which is not part of the sources here; its
members are reconstructed from every use in `src/core/ast.cpp` (operator
tags appearing in `getOpSymbol`/`getOpName`/`getReverseCmpOp`/`printOp`/
`visit_boolop`/`visit_unaryop`, and node-kind tags, one per `AST_*` node
class with an `accept` method, as used by `node->type` comparisons). -/
inductive AST_TYPE where
  | Add | And | BitAnd | BitOr | BitXor | Div | TrueDiv | DivMod | Eq
  | FloorDiv | LShift | Lt | LtE | Gt | GtE | In | Invert | Is | IsNot
  | Mod | Mult | Not | NotEq | NotIn | Or | Pow | RShift | Sub | UAdd | USub
  | alias | arguments | Assert | Assign | AugAssign | AugBinOp | Attribute
  | BinOp | BoolOp | Break | Call | ClassDef | ClsAttribute | Compare
  | comprehension | Continue | Delete | Dict | DictComp | Ellipsis
  | ExceptHandler | Exec | Expr | Expression | ExtSlice | For | FunctionDef
  | GeneratorExp | Global | If | IfExp | Import | ImportFrom | Index
  | Invoke | keyword | Lambda | LangPrimitive | List | ListComp | Module
  | Name | Num | Pass | Print | Raise | Repr | Return | Set | SetComp
  | Slice | Str | Subscript | Suite | TryExcept | TryFinally | Tuple
  | UnaryOp | While | With | Yield
deriving DecidableEq, Repr

/-- Enum `AST_Num::num_type` (`INT`, `LONG`, `FLOAT`, `COMPLEX`). -/
inductive NumType where
  | INT | LONG | FLOAT | COMPLEX
deriving DecidableEq, Repr

/-- Enum `AST_Str::str_type` (`STR`, `UNICODE`). -/
inductive StrType where
  | STR | UNICODE
deriving DecidableEq, Repr

/-- Modelled from the spec: `AST_LangPrimitive`'s opcode enumeration, with
exactly the members `visit_langprimitive` switches over. -/
inductive LangPrimitiveOpcode where
  | CHECK_EXC_MATCH | LANDINGPAD | LOCALS | GET_ITER | IMPORT_FROM
  | IMPORT_NAME | IMPORT_STAR | NONE | NONZERO | SET_EXC_INFO
  | UNCACHE_EXC_INFO | HASNEXT | PRINT_EXPR
deriving DecidableEq, Repr

/-- The closed node hierarchy of `core/ast.cpp`, one constructor per
`AST_*` class with an `accept` method.  Each constructor carries exactly the
fields that `ast.cpp` reads (children in the order the class declares them,
operator tags, names, flags); fields the file never touches (contexts,
line numbers) are omitted.  Required children are plain `AST` fields,
children the source checks for null before visiting are `Option AST`.
`AST_Invoke`'s two successor blocks are non-owning CFG references; only
their `idx` fields are read (by `visit_invoke`), so they are modelled as
the two `Nat` indices. -/
inductive AST where
  | AST_alias (name asname : String)
  | AST_arguments (defaults : List AST) (args : List AST)
      (kwarg vararg : Option AST)
  | AST_Assert (test : AST) (msg : Option AST)
  | AST_Assign (targets : List AST) (value : AST)
  | AST_AugAssign (op_type : AST_TYPE) (target : AST) (value : AST)
  | AST_AugBinOp (op_type : AST_TYPE) (left right : AST)
  | AST_Attribute (value : AST) (attr : String)
  | AST_BinOp (op_type : AST_TYPE) (left right : AST)
  | AST_BoolOp (op_type : AST_TYPE) (values : List AST)
  | AST_Break
  | AST_Call (func : AST) (args keywords : List AST)
      (starargs kwargs : Option AST)
  | AST_ClassDef (name : String) (bases decorator_list body : List AST)
  | AST_ClsAttribute (value : AST) (attr : String)
  | AST_Compare (ops : List AST_TYPE) (left : AST) (comparators : List AST)
  | AST_comprehension (target iter : AST) (ifs : List AST)
  | AST_Continue
  | AST_Delete (targets : List AST)
  | AST_Dict (keys values : List AST)
  | AST_DictComp (key value : AST) (generators : List AST)
  | AST_Ellipsis
  | AST_ExceptHandler (type name : Option AST) (body : List AST)
  | AST_Exec (body : AST) (globals locals : Option AST)
  | AST_Expr (value : AST)
  | AST_Expression (body : AST)
  | AST_ExtSlice (dims : List AST)
  | AST_For (target iter : AST) (body orelse : List AST)
  | AST_FunctionDef (name : String) (decorator_list : List AST)
      (args : AST) (body : List AST)
  | AST_GeneratorExp (elt : AST) (generators : List AST)
  | AST_Global (names : List String)
  | AST_If (test : AST) (body orelse : List AST)
  | AST_IfExp (test body orelse : AST)
  | AST_Import (names : List AST)
  | AST_ImportFrom (module : String) (names : List AST)
  | AST_Index (value : AST)
  | AST_Invoke (stmt : AST) (normal_dest exc_dest : Nat)
  | AST_keyword (arg : String) (value : AST)
  | AST_Lambda (args body : AST)
  | AST_LangPrimitive (opcode : LangPrimitiveOpcode) (args : List AST)
  | AST_List (elts : List AST)
  | AST_ListComp (elt : AST) (generators : List AST)
  | AST_Module (body : List AST)
  | AST_Name (id : String)
  | AST_Num (num_type : NumType) (n_int n_long : Int) (n_float : Float)
  | AST_Pass
  | AST_Print (dest : Option AST) (nl : Bool) (values : List AST)
  | AST_Raise (arg0 arg1 arg2 : Option AST)
  | AST_Repr (value : AST)
  | AST_Return (value : Option AST)
  | AST_Set (elts : List AST)
  | AST_SetComp (elt : AST) (generators : List AST)
  | AST_Slice (lower upper step : Option AST)
  | AST_Str (str_type : StrType) (str_data : String)
  | AST_Subscript (value slice : AST)
  | AST_Suite (body : List AST)
  | AST_TryExcept (body orelse handlers : List AST)
  | AST_TryFinally (body finalbody : List AST)
  | AST_Tuple (elts : List AST)
  | AST_UnaryOp (op_type : AST_TYPE) (operand : AST)
  | AST_While (test : AST) (body orelse : List AST)
  | AST_With (optional_vars : Option AST) (context_expr : AST)
      (body : List AST)
  | AST_Yield (value : Option AST)

/-- The `type` tag each node class is constructed with (in C++ each
`AST_Foo` constructor passes `AST_TYPE::Foo` to the base `AST`). -/
def AST.type : AST → AST_TYPE
  | .AST_alias .. => .alias
  | .AST_arguments .. => .arguments
  | .AST_Assert .. => .Assert
  | .AST_Assign .. => .Assign
  | .AST_AugAssign .. => .AugAssign
  | .AST_AugBinOp .. => .AugBinOp
  | .AST_Attribute .. => .Attribute
  | .AST_BinOp .. => .BinOp
  | .AST_BoolOp .. => .BoolOp
  | .AST_Break => .Break
  | .AST_Call .. => .Call
  | .AST_ClassDef .. => .ClassDef
  | .AST_ClsAttribute .. => .ClsAttribute
  | .AST_Compare .. => .Compare
  | .AST_comprehension .. => .comprehension
  | .AST_Continue => .Continue
  | .AST_Delete .. => .Delete
  | .AST_Dict .. => .Dict
  | .AST_DictComp .. => .DictComp
  | .AST_Ellipsis => .Ellipsis
  | .AST_ExceptHandler .. => .ExceptHandler
  | .AST_Exec .. => .Exec
  | .AST_Expr .. => .Expr
  | .AST_Expression .. => .Expression
  | .AST_ExtSlice .. => .ExtSlice
  | .AST_For .. => .For
  | .AST_FunctionDef .. => .FunctionDef
  | .AST_GeneratorExp .. => .GeneratorExp
  | .AST_Global .. => .Global
  | .AST_If .. => .If
  | .AST_IfExp .. => .IfExp
  | .AST_Import .. => .Import
  | .AST_ImportFrom .. => .ImportFrom
  | .AST_Index .. => .Index
  | .AST_Invoke .. => .Invoke
  | .AST_keyword .. => .keyword
  | .AST_Lambda .. => .Lambda
  | .AST_LangPrimitive .. => .LangPrimitive
  | .AST_List .. => .List
  | .AST_ListComp .. => .ListComp
  | .AST_Module .. => .Module
  | .AST_Name .. => .Name
  | .AST_Num .. => .Num
  | .AST_Pass => .Pass
  | .AST_Print .. => .Print
  | .AST_Raise .. => .Raise
  | .AST_Repr .. => .Repr
  | .AST_Return .. => .Return
  | .AST_Set .. => .Set
  | .AST_SetComp .. => .SetComp
  | .AST_Slice .. => .Slice
  | .AST_Str .. => .Str
  | .AST_Subscript .. => .Subscript
  | .AST_Suite .. => .Suite
  | .AST_TryExcept .. => .TryExcept
  | .AST_TryFinally .. => .TryFinally
  | .AST_Tuple .. => .Tuple
  | .AST_UnaryOp .. => .UnaryOp
  | .AST_While .. => .While
  | .AST_With .. => .With
  | .AST_Yield .. => .Yield

/-- Function `getOpSymbol` (ast.cpp:40): display symbol of an operator tag; the
`default:` branch prints `Unknown op type` and calls `abort()`, modelled
as `none`. -/
def getOpSymbol : AST_TYPE → Option String
  | .Add => some "+"
  | .BitAnd => some "&"
  | .BitOr => some "|"
  | .BitXor => some "^"
  | .Div => some "/"
  | .TrueDiv => some "/"
  | .DivMod => some "divmod()"
  | .Eq => some "=="
  | .FloorDiv => some "//"
  | .LShift => some "<<"
  | .Lt => some "<"
  | .LtE => some "<="
  | .Gt => some ">"
  | .GtE => some ">="
  | .In => some "in"
  | .Invert => some "~"
  | .Is => some "is"
  | .IsNot => some "is not"
  | .Mod => some "%"
  | .Mult => some "*"
  | .Not => some "not"
  | .NotEq => some "!="
  | .NotIn => some "not in"
  | .Pow => some "**"
  | .RShift => some ">>"
  | .Sub => some "-"
  | .UAdd => some "+"
  | .USub => some "-"
  | _ => none

/-- Function `getInplaceOpSymbol` (ast.cpp:103): symbol with `=` appended. -/
def getInplaceOpSymbol (op_type : AST_TYPE) : Option String :=
  (getOpSymbol op_type).map (fun s => s ++ "=")

/-- Function `getOpName` (ast.cpp:107): special-method name of an operator tag.
The function starts with `assert(op_type != AST_TYPE::Is)` and
`assert(op_type != AST_TYPE::IsNot)`, and its switch has no `Is`/`IsNot`
(nor `NotIn`, `And`, `Or`) case, so those tags reach the aborting
`default:` branch, modelled as `none`. -/
def getOpName : AST_TYPE → Option String
  | .Add => some "__add__"
  | .BitAnd => some "__and__"
  | .BitOr => some "__or__"
  | .BitXor => some "__xor__"
  | .Div => some "__div__"
  | .TrueDiv => some "__truediv__"
  | .DivMod => some "__divmod__"
  | .Eq => some "__eq__"
  | .FloorDiv => some "__floordiv__"
  | .LShift => some "__lshift__"
  | .Lt => some "__lt__"
  | .LtE => some "__le__"
  | .Gt => some "__gt__"
  | .GtE => some "__ge__"
  | .In => some "__contains__"
  | .Invert => some "__invert__"
  | .Mod => some "__mod__"
  | .Mult => some "__mul__"
  | .Not => some "__nonzero__"
  | .NotEq => some "__ne__"
  | .Pow => some "__pow__"
  | .RShift => some "__rshift__"
  | .Sub => some "__sub__"
  | .UAdd => some "__pos__"
  | .USub => some "__neg__"
  | _ => none

/-- Function `getInplaceOpName` (ast.cpp:203): `"__i" + normal_name->s().substr(2)`,
i.e. the special-method name with `i` spliced in after the leading `__`. -/
def getInplaceOpName (op_type : AST_TYPE) : Option String :=
  (getOpName op_type).map (fun normal_name => "__i" ++ normal_name.drop 2)

/-- Function `getReverseCmpOp` (ast.cpp:212): the explicit comparison swap table.
The C++ out-parameter `success` is the second component: it is set `true`
at entry and reset to `false` on the fall-through that returns the tag
unchanged. -/
def getReverseCmpOp (op_type : AST_TYPE) : AST_TYPE × Bool :=
  if op_type = .Lt then (.Gt, true)
  else if op_type = .LtE then (.GtE, true)
  else if op_type = .Gt then (.Lt, true)
  else if op_type = .GtE then (.LtE, true)
  else if op_type = .NotEq then (.NotEq, true)
  else if op_type = .Eq then (.Eq, true)
  else (op_type, false)

/-- Function `getReverseOpName` (ast.cpp:230): comparison tags go through the swap
table and reuse `getOpName`; all other tags get
`"__r" + normal_name->s().substr(2)`.  An abort inside `getOpName`
propagates (modelled by `Option.map`). -/
def getReverseOpName (op_type : AST_TYPE) : Option String :=
  let p := getReverseCmpOp op_type
  if p.2 then getOpName p.1
  else (getOpName p.1).map (fun normal_name => "__r" ++ normal_name.drop 2)

/-- The `ASTVisitor` interface (declared in `core/ast.h`, one pure-virtual
`visit_*` per node kind, each returning `bool`).  A C++ visitor mutates its
own fields; here each handler maps the node and the state to the new state
together with the returned `bool`. -/
structure ASTVisitor (σ : Type) where
  visit_alias : AST → σ → σ × Bool
  visit_arguments : AST → σ → σ × Bool
  visit_assert : AST → σ → σ × Bool
  visit_assign : AST → σ → σ × Bool
  visit_augassign : AST → σ → σ × Bool
  visit_augbinop : AST → σ → σ × Bool
  visit_attribute : AST → σ → σ × Bool
  visit_binop : AST → σ → σ × Bool
  visit_boolop : AST → σ → σ × Bool
  visit_break : AST → σ → σ × Bool
  visit_call : AST → σ → σ × Bool
  visit_classdef : AST → σ → σ × Bool
  visit_clsattribute : AST → σ → σ × Bool
  visit_compare : AST → σ → σ × Bool
  visit_comprehension : AST → σ → σ × Bool
  visit_continue : AST → σ → σ × Bool
  visit_delete : AST → σ → σ × Bool
  visit_dict : AST → σ → σ × Bool
  visit_dictcomp : AST → σ → σ × Bool
  visit_ellipsis : AST → σ → σ × Bool
  visit_excepthandler : AST → σ → σ × Bool
  visit_exec : AST → σ → σ × Bool
  visit_expr : AST → σ → σ × Bool
  visit_expression : AST → σ → σ × Bool
  visit_extslice : AST → σ → σ × Bool
  visit_for : AST → σ → σ × Bool
  visit_functiondef : AST → σ → σ × Bool
  visit_generatorexp : AST → σ → σ × Bool
  visit_global : AST → σ → σ × Bool
  visit_if : AST → σ → σ × Bool
  visit_ifexp : AST → σ → σ × Bool
  visit_import : AST → σ → σ × Bool
  visit_importfrom : AST → σ → σ × Bool
  visit_index : AST → σ → σ × Bool
  visit_invoke : AST → σ → σ × Bool
  visit_keyword : AST → σ → σ × Bool
  visit_lambda : AST → σ → σ × Bool
  visit_langprimitive : AST → σ → σ × Bool
  visit_list : AST → σ → σ × Bool
  visit_listcomp : AST → σ → σ × Bool
  visit_module : AST → σ → σ × Bool
  visit_name : AST → σ → σ × Bool
  visit_num : AST → σ → σ × Bool
  visit_pass : AST → σ → σ × Bool
  visit_print : AST → σ → σ × Bool
  visit_raise : AST → σ → σ × Bool
  visit_repr : AST → σ → σ × Bool
  visit_return : AST → σ → σ × Bool
  visit_set : AST → σ → σ × Bool
  visit_setcomp : AST → σ → σ × Bool
  visit_slice : AST → σ → σ × Bool
  visit_str : AST → σ → σ × Bool
  visit_subscript : AST → σ → σ × Bool
  visit_suite : AST → σ → σ × Bool
  visit_tryexcept : AST → σ → σ × Bool
  visit_tryfinally : AST → σ → σ × Bool
  visit_tuple : AST → σ → σ × Bool
  visit_unaryop : AST → σ → σ × Bool
  visit_while : AST → σ → σ × Bool
  visit_with : AST → σ → σ × Bool
  visit_yield : AST → σ → σ × Bool

variable {σ : Type}

/-- The double-dispatch step: which handler a node's `accept` invokes.
This is exactly the `v->visit_<kind>(this)` call at the top of each
`AST_<Kind>::accept` in ast.cpp. -/
def dispatch (v : ASTVisitor σ) (n : AST) (s : σ) : σ × Bool :=
  match n with
  | m@(.AST_alias ..) => v.visit_alias m s
  | m@(.AST_arguments ..) => v.visit_arguments m s
  | m@(.AST_Assert ..) => v.visit_assert m s
  | m@(.AST_Assign ..) => v.visit_assign m s
  | m@(.AST_AugAssign ..) => v.visit_augassign m s
  | m@(.AST_AugBinOp ..) => v.visit_augbinop m s
  | m@(.AST_Attribute ..) => v.visit_attribute m s
  | m@(.AST_BinOp ..) => v.visit_binop m s
  | m@(.AST_BoolOp ..) => v.visit_boolop m s
  | m@(.AST_Break) => v.visit_break m s
  | m@(.AST_Call ..) => v.visit_call m s
  | m@(.AST_ClassDef ..) => v.visit_classdef m s
  | m@(.AST_ClsAttribute ..) => v.visit_clsattribute m s
  | m@(.AST_Compare ..) => v.visit_compare m s
  | m@(.AST_comprehension ..) => v.visit_comprehension m s
  | m@(.AST_Continue) => v.visit_continue m s
  | m@(.AST_Delete ..) => v.visit_delete m s
  | m@(.AST_Dict ..) => v.visit_dict m s
  | m@(.AST_DictComp ..) => v.visit_dictcomp m s
  | m@(.AST_Ellipsis) => v.visit_ellipsis m s
  | m@(.AST_ExceptHandler ..) => v.visit_excepthandler m s
  | m@(.AST_Exec ..) => v.visit_exec m s
  | m@(.AST_Expr ..) => v.visit_expr m s
  | m@(.AST_Expression ..) => v.visit_expression m s
  | m@(.AST_ExtSlice ..) => v.visit_extslice m s
  | m@(.AST_For ..) => v.visit_for m s
  | m@(.AST_FunctionDef ..) => v.visit_functiondef m s
  | m@(.AST_GeneratorExp ..) => v.visit_generatorexp m s
  | m@(.AST_Global ..) => v.visit_global m s
  | m@(.AST_If ..) => v.visit_if m s
  | m@(.AST_IfExp ..) => v.visit_ifexp m s
  | m@(.AST_Import ..) => v.visit_import m s
  | m@(.AST_ImportFrom ..) => v.visit_importfrom m s
  | m@(.AST_Index ..) => v.visit_index m s
  | m@(.AST_Invoke ..) => v.visit_invoke m s
  | m@(.AST_keyword ..) => v.visit_keyword m s
  | m@(.AST_Lambda ..) => v.visit_lambda m s
  | m@(.AST_LangPrimitive ..) => v.visit_langprimitive m s
  | m@(.AST_List ..) => v.visit_list m s
  | m@(.AST_ListComp ..) => v.visit_listcomp m s
  | m@(.AST_Module ..) => v.visit_module m s
  | m@(.AST_Name ..) => v.visit_name m s
  | m@(.AST_Num ..) => v.visit_num m s
  | m@(.AST_Pass) => v.visit_pass m s
  | m@(.AST_Print ..) => v.visit_print m s
  | m@(.AST_Raise ..) => v.visit_raise m s
  | m@(.AST_Repr ..) => v.visit_repr m s
  | m@(.AST_Return ..) => v.visit_return m s
  | m@(.AST_Set ..) => v.visit_set m s
  | m@(.AST_SetComp ..) => v.visit_setcomp m s
  | m@(.AST_Slice ..) => v.visit_slice m s
  | m@(.AST_Str ..) => v.visit_str m s
  | m@(.AST_Subscript ..) => v.visit_subscript m s
  | m@(.AST_Suite ..) => v.visit_suite m s
  | m@(.AST_TryExcept ..) => v.visit_tryexcept m s
  | m@(.AST_TryFinally ..) => v.visit_tryfinally m s
  | m@(.AST_Tuple ..) => v.visit_tuple m s
  | m@(.AST_UnaryOp ..) => v.visit_unaryop m s
  | m@(.AST_While ..) => v.visit_while m s
  | m@(.AST_With ..) => v.visit_with m s
  | m@(.AST_Yield ..) => v.visit_yield m s

set_option maxHeartbeats 4000000

mutual

/-- The generic dispatch entry point: `AST_<Kind>::accept(ASTVisitor* v)`
for every kind, transcribed case by case from ast.cpp:246-896.  Each case
calls the matching handler; if the returned `bool` (named `skip` in the
source) is true it returns at once, otherwise it visits the children in
the order the source lists them.  `visitVector` loops become `acceptList`,
null-guarded optional children become `acceptOpt`, and `AST_Dict`'s
index-parallel loop over `keys[i]`/`values[i]` becomes `acceptPairs`. -/
def accept (v : ASTVisitor σ) (n : AST) (s : σ) : σ :=
  match n with
  | m@(.AST_alias ..) => (v.visit_alias m s).1
  | m@(.AST_arguments defaults args kwarg vararg) =>
    let p := v.visit_arguments m s
    if p.2 then p.1
    else acceptOpt v vararg (acceptOpt v kwarg (acceptList v args (acceptList v defaults p.1)))
  | m@(.AST_Assert test msg) =>
    let p := v.visit_assert m s
    if p.2 then p.1 else acceptOpt v msg (accept v test p.1)
  | m@(.AST_Assign targets value) =>
    let p := v.visit_assign m s
    -- value first; targets are assigned to left-to-right (x = x.a = object()).
    if p.2 then p.1 else acceptList v targets (accept v value p.1)
  | m@(.AST_AugAssign _ target value) =>
    let p := v.visit_augassign m s
    if p.2 then p.1 else accept v target (accept v value p.1)
  | m@(.AST_AugBinOp _ left right) =>
    let p := v.visit_augbinop m s
    if p.2 then p.1 else accept v right (accept v left p.1)
  | m@(.AST_Attribute value _) =>
    let p := v.visit_attribute m s
    if p.2 then p.1 else accept v value p.1
  | m@(.AST_BinOp _ left right) =>
    let p := v.visit_binop m s
    if p.2 then p.1 else accept v right (accept v left p.1)
  | m@(.AST_BoolOp _ values) =>
    let p := v.visit_boolop m s
    if p.2 then p.1 else acceptList v values p.1
  | m@(.AST_Break) => (v.visit_break m s).1
  | m@(.AST_Call func args keywords starargs kwargs) =>
    let p := v.visit_call m s
    if p.2 then p.1
    else acceptOpt v kwargs (acceptOpt v starargs
      (acceptList v keywords (acceptList v args (accept v func p.1))))
  | m@(.AST_ClassDef _ bases decorator_list body) =>
    let p := v.visit_classdef m s
    if p.2 then p.1
    else acceptList v body (acceptList v decorator_list (acceptList v bases p.1))
  | m@(.AST_ClsAttribute value _) =>
    let p := v.visit_clsattribute m s
    if p.2 then p.1 else accept v value p.1
  | m@(.AST_Compare _ left comparators) =>
    let p := v.visit_compare m s
    if p.2 then p.1 else acceptList v comparators (accept v left p.1)
  | m@(.AST_comprehension target iter ifs) =>
    let p := v.visit_comprehension m s
    if p.2 then p.1 else acceptList v ifs (accept v iter (accept v target p.1))
  | m@(.AST_Continue) => (v.visit_continue m s).1
  | m@(.AST_Delete targets) =>
    let p := v.visit_delete m s
    if p.2 then p.1 else acceptList v targets p.1
  | m@(.AST_Dict keys values) =>
    let p := v.visit_dict m s
    if p.2 then p.1 else acceptPairs v keys values p.1
  | m@(.AST_DictComp key value generators) =>
    let p := v.visit_dictcomp m s
    -- generators first, then value, then key (ast.cpp:442-447).
    if p.2 then p.1 else accept v key (accept v value (acceptList v generators p.1))
  | m@(.AST_Ellipsis) => (v.visit_ellipsis m s).1
  | m@(.AST_ExceptHandler type name body) =>
    let p := v.visit_excepthandler m s
    if p.2 then p.1 else acceptList v body (acceptOpt v name (acceptOpt v type p.1))
  | m@(.AST_Exec body globals locals) =>
    let p := v.visit_exec m s
    if p.2 then p.1 else acceptOpt v locals (acceptOpt v globals (accept v body p.1))
  | m@(.AST_Expr value) =>
    let p := v.visit_expr m s
    if p.2 then p.1 else accept v value p.1
  | m@(.AST_Expression body) =>
    let p := v.visit_expression m s
    if p.2 then p.1 else accept v body p.1
  | m@(.AST_ExtSlice dims) =>
    let p := v.visit_extslice m s
    if p.2 then p.1 else acceptList v dims p.1
  | m@(.AST_For target iter body orelse) =>
    let p := v.visit_for m s
    -- iter before target (ast.cpp:510-511).
    if p.2 then p.1
    else acceptList v orelse (acceptList v body (accept v target (accept v iter p.1)))
  | m@(.AST_FunctionDef _ decorator_list args body) =>
    let p := v.visit_functiondef m s
    if p.2 then p.1
    else acceptList v body (accept v args (acceptList v decorator_list p.1))
  | m@(.AST_GeneratorExp elt generators) =>
    let p := v.visit_generatorexp m s
    if p.2 then p.1 else accept v elt (acceptList v generators p.1)
  | m@(.AST_Global ..) => (v.visit_global m s).1
  | m@(.AST_If test body orelse) =>
    let p := v.visit_if m s
    if p.2 then p.1 else acceptList v orelse (acceptList v body (accept v test p.1))
  | m@(.AST_IfExp test body orelse) =>
    let p := v.visit_ifexp m s
    if p.2 then p.1 else accept v orelse (accept v body (accept v test p.1))
  | m@(.AST_Import names) =>
    let p := v.visit_import m s
    if p.2 then p.1 else acceptList v names p.1
  | m@(.AST_ImportFrom _ names) =>
    let p := v.visit_importfrom m s
    if p.2 then p.1 else acceptList v names p.1
  | m@(.AST_Index value) =>
    let p := v.visit_index m s
    if p.2 then p.1 else accept v value p.1
  | m@(.AST_Invoke stmt _ _) =>
    let p := v.visit_invoke m s
    if p.2 then p.1 else accept v stmt p.1
  | m@(.AST_keyword _ value) =>
    let p := v.visit_keyword m s
    if p.2 then p.1 else accept v value p.1
  | m@(.AST_Lambda args body) =>
    let p := v.visit_lambda m s
    if p.2 then p.1 else accept v body (accept v args p.1)
  | m@(.AST_LangPrimitive _ args) =>
    let p := v.visit_langprimitive m s
    if p.2 then p.1 else acceptList v args p.1
  | m@(.AST_List elts) =>
    let p := v.visit_list m s
    if p.2 then p.1 else acceptList v elts p.1
  | m@(.AST_ListComp elt generators) =>
    let p := v.visit_listcomp m s
    if p.2 then p.1 else accept v elt (acceptList v generators p.1)
  | m@(.AST_Module body) =>
    let p := v.visit_module m s
    if p.2 then p.1 else acceptList v body p.1
  | m@(.AST_Name ..) => (v.visit_name m s).1
  | m@(.AST_Num ..) => (v.visit_num m s).1
  | m@(.AST_Pass) => (v.visit_pass m s).1
  | m@(.AST_Print dest _ values) =>
    let p := v.visit_print m s
    if p.2 then p.1 else acceptList v values (acceptOpt v dest p.1)
  | m@(.AST_Raise arg0 arg1 arg2) =>
    let p := v.visit_raise m s
    if p.2 then p.1 else acceptOpt v arg2 (acceptOpt v arg1 (acceptOpt v arg0 p.1))
  | m@(.AST_Repr value) =>
    let p := v.visit_repr m s
    if p.2 then p.1 else accept v value p.1
  | m@(.AST_Return value) =>
    let p := v.visit_return m s
    if p.2 then p.1 else acceptOpt v value p.1
  | m@(.AST_Set elts) =>
    let p := v.visit_set m s
    if p.2 then p.1 else acceptList v elts p.1
  | m@(.AST_SetComp elt generators) =>
    let p := v.visit_setcomp m s
    if p.2 then p.1 else accept v elt (acceptList v generators p.1)
  | m@(.AST_Slice lower upper step) =>
    let p := v.visit_slice m s
    if p.2 then p.1 else acceptOpt v step (acceptOpt v upper (acceptOpt v lower p.1))
  | m@(.AST_Str ..) => (v.visit_str m s).1
  | m@(.AST_Subscript value slice) =>
    let p := v.visit_subscript m s
    if p.2 then p.1 else accept v slice (accept v value p.1)
  | m@(.AST_Suite body) =>
    let p := v.visit_suite m s
    if p.2 then p.1 else acceptList v body p.1
  | m@(.AST_TryExcept body orelse handlers) =>
    let p := v.visit_tryexcept m s
    -- body, orelse, handlers in that order (ast.cpp:814-816).
    if p.2 then p.1
    else acceptList v handlers (acceptList v orelse (acceptList v body p.1))
  | m@(.AST_TryFinally body finalbody) =>
    let p := v.visit_tryfinally m s
    if p.2 then p.1 else acceptList v finalbody (acceptList v body p.1)
  | m@(.AST_Tuple elts) =>
    let p := v.visit_tuple m s
    if p.2 then p.1 else acceptList v elts p.1
  | m@(.AST_UnaryOp _ operand) =>
    let p := v.visit_unaryop m s
    if p.2 then p.1 else accept v operand p.1
  | m@(.AST_While test body orelse) =>
    let p := v.visit_while m s
    if p.2 then p.1 else acceptList v orelse (acceptList v body (accept v test p.1))
  | m@(.AST_With optional_vars context_expr body) =>
    let p := v.visit_with m s
    if p.2 then p.1
    else acceptList v body (acceptOpt v optional_vars (accept v context_expr p.1))
  | m@(.AST_Yield value) =>
    let p := v.visit_yield m s
    if p.2 then p.1 else acceptOpt v value p.1
termination_by sizeOf n

/-- Loop `visitVector` (ast.cpp:240): accept every element in order. -/
def acceptList (v : ASTVisitor σ) (l : List AST) (s : σ) : σ :=
  match l with
  | [] => s
  | x :: xs => acceptList v xs (accept v x s)
termination_by sizeOf l

/-- A null-guarded `if (child) child->accept(v)`. -/
def acceptOpt (v : ASTVisitor σ) (o : Option AST) (s : σ) : σ :=
  match o with
  | none => s
  | some x => accept v x s
termination_by sizeOf o

/-- The parallel loop of `AST_Dict::accept`: `keys[i]` then `values[i]` for each
index.  The source indexes `values` by `keys`' length (equal in any
well-formed node); the model stops when either list runs out. -/
def acceptPairs (v : ASTVisitor σ) (keys values : List AST) (s : σ) : σ :=
  match keys, values with
  | k :: ks, vl :: vs => acceptPairs v ks vs (accept v vl (accept v k s))
  | _, _ => s
termination_by sizeOf keys + sizeOf values

end

/-- Interleaving of `AST_Dict`'s parallel `keys`/`values` vectors in the
order its `accept` visits them. -/
def interleavePairs : List AST → List AST → List AST
  | k :: ks, vl :: vs => k :: vl :: interleavePairs ks vs
  | _, _ => []

/-- The ordered child list of each node kind, read off the visit order of
its `accept` method in ast.cpp (which equals source evaluation order). -/
def children : AST → List AST
  | .AST_alias .. => []
  | .AST_arguments defaults args kwarg vararg =>
      defaults ++ args ++ kwarg.toList ++ vararg.toList
  | .AST_Assert test msg => test :: msg.toList
  | .AST_Assign targets value => value :: targets
  | .AST_AugAssign _ target value => [value, target]
  | .AST_AugBinOp _ left right => [left, right]
  | .AST_Attribute value _ => [value]
  | .AST_BinOp _ left right => [left, right]
  | .AST_BoolOp _ values => values
  | .AST_Break => []
  | .AST_Call func args keywords starargs kwargs =>
      func :: (args ++ keywords ++ starargs.toList ++ kwargs.toList)
  | .AST_ClassDef _ bases decorator_list body => bases ++ decorator_list ++ body
  | .AST_ClsAttribute value _ => [value]
  | .AST_Compare _ left comparators => left :: comparators
  | .AST_comprehension target iter ifs => target :: iter :: ifs
  | .AST_Continue => []
  | .AST_Delete targets => targets
  | .AST_Dict keys values => interleavePairs keys values
  | .AST_DictComp key value generators => generators ++ [value, key]
  | .AST_Ellipsis => []
  | .AST_ExceptHandler type name body => type.toList ++ name.toList ++ body
  | .AST_Exec body globals locals => body :: (globals.toList ++ locals.toList)
  | .AST_Expr value => [value]
  | .AST_Expression body => [body]
  | .AST_ExtSlice dims => dims
  | .AST_For target iter body orelse => iter :: target :: (body ++ orelse)
  | .AST_FunctionDef _ decorator_list args body => decorator_list ++ args :: body
  | .AST_GeneratorExp elt generators => generators ++ [elt]
  | .AST_Global .. => []
  | .AST_If test body orelse => test :: (body ++ orelse)
  | .AST_IfExp test body orelse => [test, body, orelse]
  | .AST_Import names => names
  | .AST_ImportFrom _ names => names
  | .AST_Index value => [value]
  | .AST_Invoke stmt _ _ => [stmt]
  | .AST_keyword _ value => [value]
  | .AST_Lambda args body => [args, body]
  | .AST_LangPrimitive _ args => args
  | .AST_List elts => elts
  | .AST_ListComp elt generators => generators ++ [elt]
  | .AST_Module body => body
  | .AST_Name .. => []
  | .AST_Num .. => []
  | .AST_Pass => []
  | .AST_Print dest _ values => dest.toList ++ values
  | .AST_Raise arg0 arg1 arg2 => arg0.toList ++ arg1.toList ++ arg2.toList
  | .AST_Repr value => [value]
  | .AST_Return value => value.toList
  | .AST_Set elts => elts
  | .AST_SetComp elt generators => generators ++ [elt]
  | .AST_Slice lower upper step => lower.toList ++ upper.toList ++ step.toList
  | .AST_Str .. => []
  | .AST_Subscript value slice => [value, slice]
  | .AST_Suite body => body
  | .AST_TryExcept body orelse handlers => body ++ orelse ++ handlers
  | .AST_TryFinally body finalbody => body ++ finalbody
  | .AST_Tuple elts => elts
  | .AST_UnaryOp _ operand => [operand]
  | .AST_While test body orelse => test :: (body ++ orelse)
  | .AST_With optional_vars context_expr body =>
      context_expr :: (optional_vars.toList ++ body)
  | .AST_Yield value => value.toList

mutual

/-- The pre-order node sequence a pruning traversal produces: the node
itself, then (unless `g` says to prune at it) the sequences of its
children in `accept` order.  This is the specification-side description of
a traversal by a visitor whose handler for a node `n` records `n` and
returns `g n`. -/
def traceF (g : AST → Bool) (n : AST) : List AST :=
  n :: (if g n then [] else
    match n with
    | .AST_alias .. => []
    | .AST_arguments defaults args kwarg vararg =>
        traceListF g defaults ++ traceListF g args ++ traceOptF g kwarg ++ traceOptF g vararg
    | .AST_Assert test msg => traceF g test ++ traceOptF g msg
    | .AST_Assign targets value => traceF g value ++ traceListF g targets
    | .AST_AugAssign _ target value => traceF g value ++ traceF g target
    | .AST_AugBinOp _ left right => traceF g left ++ traceF g right
    | .AST_Attribute value _ => traceF g value
    | .AST_BinOp _ left right => traceF g left ++ traceF g right
    | .AST_BoolOp _ values => traceListF g values
    | .AST_Break => []
    | .AST_Call func args keywords starargs kwargs =>
        traceF g func ++ traceListF g args ++ traceListF g keywords
          ++ traceOptF g starargs ++ traceOptF g kwargs
    | .AST_ClassDef _ bases decorator_list body =>
        traceListF g bases ++ traceListF g decorator_list ++ traceListF g body
    | .AST_ClsAttribute value _ => traceF g value
    | .AST_Compare _ left comparators => traceF g left ++ traceListF g comparators
    | .AST_comprehension target iter ifs =>
        traceF g target ++ traceF g iter ++ traceListF g ifs
    | .AST_Continue => []
    | .AST_Delete targets => traceListF g targets
    | .AST_Dict keys values => tracePairsF g keys values
    | .AST_DictComp key value generators =>
        traceListF g generators ++ traceF g value ++ traceF g key
    | .AST_Ellipsis => []
    | .AST_ExceptHandler type name body =>
        traceOptF g type ++ traceOptF g name ++ traceListF g body
    | .AST_Exec body globals locals =>
        traceF g body ++ traceOptF g globals ++ traceOptF g locals
    | .AST_Expr value => traceF g value
    | .AST_Expression body => traceF g body
    | .AST_ExtSlice dims => traceListF g dims
    | .AST_For target iter body orelse =>
        traceF g iter ++ traceF g target ++ traceListF g body ++ traceListF g orelse
    | .AST_FunctionDef _ decorator_list args body =>
        traceListF g decorator_list ++ traceF g args ++ traceListF g body
    | .AST_GeneratorExp elt generators => traceListF g generators ++ traceF g elt
    | .AST_Global .. => []
    | .AST_If test body orelse =>
        traceF g test ++ traceListF g body ++ traceListF g orelse
    | .AST_IfExp test body orelse => traceF g test ++ traceF g body ++ traceF g orelse
    | .AST_Import names => traceListF g names
    | .AST_ImportFrom _ names => traceListF g names
    | .AST_Index value => traceF g value
    | .AST_Invoke stmt _ _ => traceF g stmt
    | .AST_keyword _ value => traceF g value
    | .AST_Lambda args body => traceF g args ++ traceF g body
    | .AST_LangPrimitive _ args => traceListF g args
    | .AST_List elts => traceListF g elts
    | .AST_ListComp elt generators => traceListF g generators ++ traceF g elt
    | .AST_Module body => traceListF g body
    | .AST_Name .. => []
    | .AST_Num .. => []
    | .AST_Pass => []
    | .AST_Print dest _ values => traceOptF g dest ++ traceListF g values
    | .AST_Raise arg0 arg1 arg2 =>
        traceOptF g arg0 ++ traceOptF g arg1 ++ traceOptF g arg2
    | .AST_Repr value => traceF g value
    | .AST_Return value => traceOptF g value
    | .AST_Set elts => traceListF g elts
    | .AST_SetComp elt generators => traceListF g generators ++ traceF g elt
    | .AST_Slice lower upper step =>
        traceOptF g lower ++ traceOptF g upper ++ traceOptF g step
    | .AST_Str .. => []
    | .AST_Subscript value slice => traceF g value ++ traceF g slice
    | .AST_Suite body => traceListF g body
    | .AST_TryExcept body orelse handlers =>
        traceListF g body ++ traceListF g orelse ++ traceListF g handlers
    | .AST_TryFinally body finalbody => traceListF g body ++ traceListF g finalbody
    | .AST_Tuple elts => traceListF g elts
    | .AST_UnaryOp _ operand => traceF g operand
    | .AST_While test body orelse =>
        traceF g test ++ traceListF g body ++ traceListF g orelse
    | .AST_With optional_vars context_expr body =>
        traceF g context_expr ++ traceOptF g optional_vars ++ traceListF g body
    | .AST_Yield value => traceOptF g value)
termination_by sizeOf n

/-- Concatenated traces of a vector of children. -/
def traceListF (g : AST → Bool) (l : List AST) : List AST :=
  match l with
  | [] => []
  | x :: xs => traceF g x ++ traceListF g xs
termination_by sizeOf l

/-- Trace of an optional child. -/
def traceOptF (g : AST → Bool) (o : Option AST) : List AST :=
  match o with
  | none => []
  | some x => traceF g x
termination_by sizeOf o

/-- Traces of `AST_Dict`'s interleaved key/value pairs. -/
def tracePairsF (g : AST → Bool) (keys values : List AST) : List AST :=
  match keys, values with
  | k :: ks, vl :: vs => traceF g k ++ traceF g vl ++ tracePairsF g ks vs
  | _, _ => []
termination_by sizeOf keys + sizeOf values

end

/-- The order-recording stub visitor of spec §8: every handler appends the
visited node to the state (a list of visited nodes, in visit order) and
returns `g node` as its `bool`. -/
def traceVisitor (g : AST → Bool) : ASTVisitor (List AST) where
  visit_alias := fun n s => (s ++ [n], g n)
  visit_arguments := fun n s => (s ++ [n], g n)
  visit_assert := fun n s => (s ++ [n], g n)
  visit_assign := fun n s => (s ++ [n], g n)
  visit_augassign := fun n s => (s ++ [n], g n)
  visit_augbinop := fun n s => (s ++ [n], g n)
  visit_attribute := fun n s => (s ++ [n], g n)
  visit_binop := fun n s => (s ++ [n], g n)
  visit_boolop := fun n s => (s ++ [n], g n)
  visit_break := fun n s => (s ++ [n], g n)
  visit_call := fun n s => (s ++ [n], g n)
  visit_classdef := fun n s => (s ++ [n], g n)
  visit_clsattribute := fun n s => (s ++ [n], g n)
  visit_compare := fun n s => (s ++ [n], g n)
  visit_comprehension := fun n s => (s ++ [n], g n)
  visit_continue := fun n s => (s ++ [n], g n)
  visit_delete := fun n s => (s ++ [n], g n)
  visit_dict := fun n s => (s ++ [n], g n)
  visit_dictcomp := fun n s => (s ++ [n], g n)
  visit_ellipsis := fun n s => (s ++ [n], g n)
  visit_excepthandler := fun n s => (s ++ [n], g n)
  visit_exec := fun n s => (s ++ [n], g n)
  visit_expr := fun n s => (s ++ [n], g n)
  visit_expression := fun n s => (s ++ [n], g n)
  visit_extslice := fun n s => (s ++ [n], g n)
  visit_for := fun n s => (s ++ [n], g n)
  visit_functiondef := fun n s => (s ++ [n], g n)
  visit_generatorexp := fun n s => (s ++ [n], g n)
  visit_global := fun n s => (s ++ [n], g n)
  visit_if := fun n s => (s ++ [n], g n)
  visit_ifexp := fun n s => (s ++ [n], g n)
  visit_import := fun n s => (s ++ [n], g n)
  visit_importfrom := fun n s => (s ++ [n], g n)
  visit_index := fun n s => (s ++ [n], g n)
  visit_invoke := fun n s => (s ++ [n], g n)
  visit_keyword := fun n s => (s ++ [n], g n)
  visit_lambda := fun n s => (s ++ [n], g n)
  visit_langprimitive := fun n s => (s ++ [n], g n)
  visit_list := fun n s => (s ++ [n], g n)
  visit_listcomp := fun n s => (s ++ [n], g n)
  visit_module := fun n s => (s ++ [n], g n)
  visit_name := fun n s => (s ++ [n], g n)
  visit_num := fun n s => (s ++ [n], g n)
  visit_pass := fun n s => (s ++ [n], g n)
  visit_print := fun n s => (s ++ [n], g n)
  visit_raise := fun n s => (s ++ [n], g n)
  visit_repr := fun n s => (s ++ [n], g n)
  visit_return := fun n s => (s ++ [n], g n)
  visit_set := fun n s => (s ++ [n], g n)
  visit_setcomp := fun n s => (s ++ [n], g n)
  visit_slice := fun n s => (s ++ [n], g n)
  visit_str := fun n s => (s ++ [n], g n)
  visit_subscript := fun n s => (s ++ [n], g n)
  visit_suite := fun n s => (s ++ [n], g n)
  visit_tryexcept := fun n s => (s ++ [n], g n)
  visit_tryfinally := fun n s => (s ++ [n], g n)
  visit_tuple := fun n s => (s ++ [n], g n)
  visit_unaryop := fun n s => (s ++ [n], g n)
  visit_while := fun n s => (s ++ [n], g n)
  visit_with := fun n s => (s ++ [n], g n)
  visit_yield := fun n s => (s ++ [n], g n)

/-- Class `FlattenVisitor` (ast.cpp:1802-2049): every handler appends the node to
the output vector; the handlers for class definition, for-loop, function
definition, generator expression, lambda and module return
`!expand_scopes`, every other handler returns `false`.  (The constructor's
debug `assert(expand_scopes && ...)` is a no-op in release builds and is
not modelled.) -/
def flattenVisitor (expand_scopes : Bool) : ASTVisitor (List AST) where
  visit_alias := fun n s => (s ++ [n], false)
  visit_arguments := fun n s => (s ++ [n], false)
  visit_assert := fun n s => (s ++ [n], false)
  visit_assign := fun n s => (s ++ [n], false)
  visit_augassign := fun n s => (s ++ [n], false)
  visit_augbinop := fun n s => (s ++ [n], false)
  visit_attribute := fun n s => (s ++ [n], false)
  visit_binop := fun n s => (s ++ [n], false)
  visit_boolop := fun n s => (s ++ [n], false)
  visit_break := fun n s => (s ++ [n], false)
  visit_call := fun n s => (s ++ [n], false)
  visit_classdef := fun n s => (s ++ [n], !expand_scopes)
  visit_clsattribute := fun n s => (s ++ [n], false)
  visit_compare := fun n s => (s ++ [n], false)
  visit_comprehension := fun n s => (s ++ [n], false)
  visit_continue := fun n s => (s ++ [n], false)
  visit_delete := fun n s => (s ++ [n], false)
  visit_dict := fun n s => (s ++ [n], false)
  visit_dictcomp := fun n s => (s ++ [n], false)
  visit_ellipsis := fun n s => (s ++ [n], false)
  visit_excepthandler := fun n s => (s ++ [n], false)
  visit_exec := fun n s => (s ++ [n], false)
  visit_expr := fun n s => (s ++ [n], false)
  visit_expression := fun n s => (s ++ [n], false)
  visit_extslice := fun n s => (s ++ [n], false)
  visit_for := fun n s => (s ++ [n], !expand_scopes)
  visit_functiondef := fun n s => (s ++ [n], !expand_scopes)
  visit_generatorexp := fun n s => (s ++ [n], !expand_scopes)
  visit_global := fun n s => (s ++ [n], false)
  visit_if := fun n s => (s ++ [n], false)
  visit_ifexp := fun n s => (s ++ [n], false)
  visit_import := fun n s => (s ++ [n], false)
  visit_importfrom := fun n s => (s ++ [n], false)
  visit_index := fun n s => (s ++ [n], false)
  visit_invoke := fun n s => (s ++ [n], false)
  visit_keyword := fun n s => (s ++ [n], false)
  visit_lambda := fun n s => (s ++ [n], !expand_scopes)
  visit_langprimitive := fun n s => (s ++ [n], false)
  visit_list := fun n s => (s ++ [n], false)
  visit_listcomp := fun n s => (s ++ [n], false)
  visit_module := fun n s => (s ++ [n], !expand_scopes)
  visit_name := fun n s => (s ++ [n], false)
  visit_num := fun n s => (s ++ [n], false)
  visit_pass := fun n s => (s ++ [n], false)
  visit_print := fun n s => (s ++ [n], false)
  visit_raise := fun n s => (s ++ [n], false)
  visit_repr := fun n s => (s ++ [n], false)
  visit_return := fun n s => (s ++ [n], false)
  visit_set := fun n s => (s ++ [n], false)
  visit_setcomp := fun n s => (s ++ [n], false)
  visit_slice := fun n s => (s ++ [n], false)
  visit_str := fun n s => (s ++ [n], false)
  visit_subscript := fun n s => (s ++ [n], false)
  visit_suite := fun n s => (s ++ [n], false)
  visit_tryexcept := fun n s => (s ++ [n], false)
  visit_tryfinally := fun n s => (s ++ [n], false)
  visit_tuple := fun n s => (s ++ [n], false)
  visit_unaryop := fun n s => (s ++ [n], false)
  visit_while := fun n s => (s ++ [n], false)
  visit_with := fun n s => (s ++ [n], false)
  visit_yield := fun n s => (s ++ [n], false)

/-- The per-kind pruning predicate `FlattenVisitor`'s handlers implement:
`true` exactly for the handler results `!expand_scopes` when
`expand_scopes` is false. -/
def flattenPrunes (expand_scopes : Bool) (n : AST) : Bool :=
  match n with
  | .AST_ClassDef .. => !expand_scopes
  | .AST_For .. => !expand_scopes
  | .AST_FunctionDef .. => !expand_scopes
  | .AST_GeneratorExp .. => !expand_scopes
  | .AST_Lambda .. => !expand_scopes
  | .AST_Module .. => !expand_scopes
  | _ => false

/-- Function `flatten(llvm::ArrayRef<AST_stmt*> roots, output, expand_scopes)`
(ast.cpp:2052): one `FlattenVisitor` instance accepts each root in order,
accumulating the output vector. -/
def flatten (roots : List AST) (expand_scopes : Bool) : List AST :=
  roots.foldl (fun output root => accept (flattenVisitor expand_scopes) root output) []

/-- Function `flatten(AST_expr* root, output, expand_scopes)` (ast.cpp:2060). -/
def flattenExpr (root : AST) (expand_scopes : Bool) : List AST :=
  accept (flattenVisitor expand_scopes) root []

/-- The mutable state of `ASTPrintVisitor`: the output character stream and
the current indentation level (an `int` in C++, bumped by 4 around nested
blocks). -/
structure PrintState where
  stream : String
  indent : Int

/-- Emission `stream << text`. -/
def emit (s : PrintState) (text : String) : PrintState :=
  ⟨s.stream ++ text, s.indent⟩

/-- Method `ASTPrintVisitor::printIndent` (ast.cpp:904): one space per unit of
`indent` (the loop `for (i = 0; i < indent; i++)` emits nothing for a
non-positive level). -/
def printIndent (s : PrintState) : PrintState :=
  emit s (String.mk (List.replicate s.indent.toNat ' '))

/-- Adjustment `indent += 4` / `indent -= 4`. -/
def indentBy (s : PrintState) (d : Int) : PrintState :=
  ⟨s.stream, s.indent + d⟩

/-- Method `ASTPrintVisitor::printOp` (ast.cpp:952).  The `default:` branch prints
`"<" << (int)op_type << ">"`; the numeric enum values live in `core/ast.h`
(absent here), so the middle of that diagnostic placeholder is modelled as
an opaque `"?"`.  No claim depends on that branch. -/
def printOp (op_type : AST_TYPE) (s : PrintState) : PrintState :=
  match op_type with
  | .Add => emit s "+"
  | .BitAnd => emit s "&"
  | .BitOr => emit s "|"
  | .BitXor => emit s "^"
  | .Div => emit s "/"
  | .LShift => emit s "<<"
  | .RShift => emit s ">>"
  | .Pow => emit s "**"
  | .Mod => emit s "%"
  | .Mult => emit s "*"
  | .Sub => emit s "-"
  | _ => emit s ("<" ++ "?" ++ ">")

/-- The display name `visit_langprimitive` prints for each opcode. -/
def langPrimitiveName : LangPrimitiveOpcode → String
  | .CHECK_EXC_MATCH => "CHECK_EXC_MATCH"
  | .LANDINGPAD => "LANDINGPAD"
  | .LOCALS => "LOCALS"
  | .GET_ITER => "GET_ITER"
  | .IMPORT_FROM => "IMPORT_FROM"
  | .IMPORT_NAME => "IMPORT_NAME"
  | .IMPORT_STAR => "IMPORT_STAR"
  | .NONE => "NONE"
  | .NONZERO => "NONZERO"
  | .SET_EXC_INFO => "SET_EXC_INFO"
  | .UNCACHE_EXC_INFO => "UNCACHE_EXC_INFO"
  | .HASNEXT => "HASNEXT"
  | .PRINT_EXPR => "PRINT_EXPR"

/-- Handler `visit_num` (ast.cpp:1501).  `stream << node->n_int` on an `int64_t`
matches `toString` on `Int`; the `double` cases use Lean's `Float`
rendering as an approximation of the iostream default format (no claim
examines a float literal). -/
def numText (num_type : NumType) (n_int n_long : Int) (n_float : Float) : String :=
  match num_type with
  | .INT => toString n_int
  | .LONG => toString n_long ++ "L"
  | .FLOAT => toString n_float
  | .COMPLEX => toString n_float ++ "j"

/-- Emission `stream << node->names[i]` joined by `", "` (`visit_global`). -/
def joinNames : List String → Bool → String
  | [], _ => ""
  | x :: xs, first => (if first then "" else ", ") ++ x ++ joinNames xs false

/-- The operator prefix `visit_unaryop` (ast.cpp:1713) emits before the
parenthesised operand; the `RELEASE_ASSERT(0)` default for a non-unary tag
is modelled as the empty emission (no claim reaches it). -/
def unaryOpPrefix : AST_TYPE → String
  | .Invert => "~"
  | .Not => "not "
  | .UAdd => "+"
  | .USub => "-"
  | _ => ""

/-- The separator `visit_boolop` (ast.cpp:1023) emits between consecutive
values; its `ASSERT(0)` default emits nothing. -/
def boolOpSep : AST_TYPE → String
  | .And => " and "
  | .Or => " or "
  | _ => ""

mutual

/-- The debug renderer `ASTPrintVisitor` (ast.cpp:904-1799) composed with
the dispatch protocol, one case per `visit_<kind>` handler.  Handlers that
return `true` do their own child rendering; the handlers that return
`false` on a node with children (`visit_expr`, `visit_index`,
`visit_return`) are composed here with the child visits `accept` then
performs, which is what `print_ast`'s `ast->accept(&v)` executes.  The
`RELEASE_ASSERT`/`ASSERT` aborts in `visit_boolop`/`visit_unaryop` for an
operator tag outside the handled set are modelled as printing nothing (no
claim reaches them). -/
def printVisit (n : AST) (s : PrintState) : PrintState :=
  match n with
  | .AST_alias name asname =>
    let s := emit s name
    if asname.length ≠ 0 then emit (emit s " as ") asname else s
  | .AST_arguments defaults args _ _ =>
    -- visit_arguments (ast.cpp:917): comma-separated positionals, the last
    -- ndefault of which get "=" and the default at index
    -- i - (nargs - ndefault); the running index j starts at
    -- ndefault - nargs (0 when clamped) to match the C++ arithmetic.
    printArgsLoop defaults.length (defaults.length - args.length) true args defaults s
  | .AST_Assert test msg =>
    let s := printVisit test (emit s "assert ")
    match msg with
    | some m => printVisit m (emit s ", ")
    | none => s
  | .AST_Assign targets value =>
    printVisit value (printAssignTargets targets s)
  | .AST_AugAssign op_type target value =>
    printVisit value (emit (printOp op_type (printVisit target s)) "=")
  | .AST_AugBinOp op_type left right =>
    printVisit right (printOp op_type (emit (printVisit left s) "="))
  | .AST_Attribute value attr =>
    emit (emit (printVisit value s) ".") attr
  | .AST_BinOp op_type left right =>
    printVisit right (printOp op_type (printVisit left s))
  | .AST_BoolOp op_type values =>
    printBoolOpValues op_type true values s
  | .AST_Break => emit s "break"
  | .AST_Call func args keywords starargs kwargs =>
    let s := emit (printVisit func s) "("
    let s := printCommaList true args s
    let first := args.isEmpty
    let s := printCommaList first keywords s
    let first := first && keywords.isEmpty
    let s := match starargs with
      | some sa => printVisit sa (if first then s else emit s ", ")
      | none => s
    let first := first && starargs.isNone
    let s := match kwargs with
      | some kw => printVisit kw (if first then s else emit s ", ")
      | none => s
    emit s ")"
  | .AST_ClassDef name bases _decorator_list body =>
    let s := printDecorators _decorator_list s
    let s := emit (emit (emit s "class ") name) "("
    let s := printCommaList true bases s
    let s := emit s ")"
    let s := indentBy s 4
    let s := printNLIndentStmts body s
    indentBy s (-4)
  | .AST_ClsAttribute value attr =>
    emit (emit (printVisit value s) ":") attr
  | .AST_Compare ops left comparators =>
    printCompareChain ops comparators (printVisit left s)
  | .AST_comprehension target iter ifs =>
    let s := printVisit target (emit s "for ")
    let s := printVisit iter (emit s " in ")
    printPrefixedEach " if " ifs s
  | .AST_Continue => emit s "continue"
  | .AST_Delete targets =>
    printCommaList true targets (emit s "del ")
  | .AST_Dict keys values =>
    emit (printDictPairs true keys values (emit s "\x7b")) "\x7d"
  | .AST_DictComp key value generators =>
    let s := printVisit key (emit s "\x7b")
    let s := printVisit value (emit s ":")
    emit (printPrefixedEach " " generators s) "\x7d"
  | .AST_Ellipsis => emit s "..."
  | .AST_ExceptHandler type name body =>
    let s := emit s "except"
    let s := match type with
      | some t => printVisit t (emit s " ")
      | none => s
    let s := match name with
      | some nm => printVisit nm (emit s " as ")
      | none => s
    let s := emit s ":\n"
    let s := indentBy s 4
    let s := printStmtLines body s
    indentBy s (-4)
  | .AST_Exec body globals locals =>
    let s := printVisit body (emit s "exec ")
    let s := match globals with
      | some gl =>
        let s := printVisit gl (emit s " in ")
        match locals with
        | some lo => printVisit lo (emit s ", ")
        | none => s
      | none => s
    emit s "\n"
  | .AST_Expr value =>
    -- visit_expr prints nothing and returns false, so accept renders the value.
    printVisit value s
  | .AST_Expression body =>
    emit (printVisit body s) "\n"
  | .AST_ExtSlice dims =>
    printCommaList true dims s
  | .AST_For _ _ _ _ => emit s "<for loop>\n"
  | .AST_FunctionDef name _decorator_list args body =>
    let s := printDecorators _decorator_list s
    let s := emit s "def "
    let s := if name ≠ "" then emit s name else emit s "<lambda>"
    let s := emit (printVisit args (emit s "(")) ")"
    let s := indentBy s 4
    let s := printNLIndentStmts body s
    indentBy s (-4)
  | .AST_GeneratorExp elt generators =>
    let s := printVisit elt (emit s "[")
    emit (printPrefixedEach " " generators s) "]"
  | .AST_Global names =>
    emit (emit s "global ") (joinNames names true)
  | .AST_If test body orelse =>
    let s := printVisit test (emit s "if ")
    let s := emit s ":\n"
    let s := indentBy s 4
    let s := printStmtLines body s
    let s := indentBy s (-4)
    match orelse with
    | [] => s
    | o :: os =>
      -- node->orelse.size() == 1 && node->orelse[0]->type == AST_TYPE::If
      let s := printIndent s
      if os.isEmpty ∧ o.type = AST_TYPE.If then
        printJoined true (o :: os) (emit s "el")
      else
        let s := indentBy (emit s "else:\n") 4
        indentBy (printJoined true (o :: os) s) (-4)
  | .AST_IfExp test body orelse =>
    let s := printVisit body s
    let s := printVisit test (emit s " if ")
    printVisit orelse (emit s " else ")
  | .AST_Import names =>
    printCommaList true names (emit s "import ")
  | .AST_ImportFrom module names =>
    printCommaList true names (emit (emit (emit s "from ") module) " import ")
  | .AST_Index value =>
    -- visit_index prints nothing and returns false, so accept renders the value.
    printVisit value s
  | .AST_Invoke stmt normal_dest exc_dest =>
    let s := emit s ("invoke " ++ toString normal_dest ++ " " ++ toString exc_dest ++ ": ")
    printVisit stmt s
  | .AST_keyword arg value =>
    printVisit value (emit (emit s arg) "=")
  | .AST_Lambda args body =>
    printVisit body (emit (printVisit args (emit s "lambda ")) ": ")
  | .AST_LangPrimitive opcode args =>
    let s := emit (emit s ":") (langPrimitiveName opcode)
    emit (printCommaList true args (emit s "(")) ")"
  | .AST_List elts =>
    emit (printCommaList true elts (emit s "[")) "]"
  | .AST_ListComp elt generators =>
    let s := printVisit elt (emit s "[")
    emit (printPrefixedEach " " generators s) "]"
  | .AST_Module body =>
    printModuleLines body s
  | .AST_Name id => emit s id
  | .AST_Num num_type n_int n_long n_float =>
    emit s (numText num_type n_int n_long n_float)
  | .AST_Pass => emit s "pass"
  | .AST_Print dest nl values =>
    let s := emit s "print "
    let s := match dest with
      | some d => emit (printVisit d (emit s ">>")) ", "
      | none => s
    let s := printCommaList true values s
    if !nl then emit s "," else s
  | .AST_Raise arg0 arg1 arg2 =>
    let s := emit s "raise"
    let s := match arg0 with
      | some a => printVisit a (emit s " ")
      | none => s
    let s := match arg1 with
      | some a => printVisit a (emit s ", ")
      | none => s
    match arg2 with
    | some a => printVisit a (emit s ", ")
    | none => s
  | .AST_Repr value =>
    emit (printVisit value (emit s "`")) "`"
  | .AST_Return value =>
    -- visit_return prints "return " and returns false; accept then renders
    -- the (optional) value.
    let s := emit s "return "
    match value with
    | some x => printVisit x s
    | none => s
  | .AST_Set elts =>
    -- Empty set literals print as "SET{}" to disambiguate from dicts.
    let s := if elts.isEmpty then emit s "SET" else s
    emit (printCommaList true elts (emit s "\x7b")) "\x7d"
  | .AST_SetComp elt generators =>
    let s := printVisit elt (emit s "\x7b")
    emit (printPrefixedEach " " generators s) "\x7d"
  | .AST_Slice lower upper step =>
    let s := emit s "<slice>("
    let s := match lower with
      | some x => printVisit x s
      | none => s
    let s := if upper.isSome || step.isSome then emit s ":" else s
    let s := match upper with
      | some x => printVisit x s
      | none => s
    let s := match step with
      | some x => printVisit x (emit s ":")
      | none => s
    emit s ")"
  | .AST_Str str_type str_data =>
    match str_type with
    | .STR => emit s ("\"" ++ str_data ++ "\"")
    | .UNICODE => emit s "<unicode value>"
  | .AST_Subscript value slice =>
    emit (printVisit slice (emit (printVisit value s) "[")) "]"
  | .AST_Suite body =>
    printStmtLines body s
  | .AST_TryExcept body orelse handlers =>
    let s := emit s "try:\n"
    let s := indentBy (printStmtLines body (indentBy s 4)) (-4)
    let s := printIndentedEach handlers s
    match orelse with
    | [] => s
    | o :: os =>
      let s := emit (printIndent s) "else:\n"
      indentBy (printStmtLines (o :: os) (indentBy s 4)) (-4)
  | .AST_TryFinally body finalbody =>
    -- node->body.size() == 1 && node->body[0]->type == AST_TYPE::TryExcept
    match body with
    | [b] =>
      if b.type = AST_TYPE.TryExcept then
        let s := printVisit b s
        let s := emit (printIndent s) "finally:\n"
        indentBy (printStmtLines finalbody (indentBy s 4)) (-4)
      else
        let s := emit s "try:\n"
        let s := indentBy (printStmtLines [b] (indentBy s 4)) (-4)
        let s := emit (printIndent s) "finally:\n"
        indentBy (printStmtLines finalbody (indentBy s 4)) (-4)
    | bs =>
      let s := emit s "try:\n"
      let s := indentBy (printStmtLines bs (indentBy s 4)) (-4)
      let s := emit (printIndent s) "finally:\n"
      indentBy (printStmtLines finalbody (indentBy s 4)) (-4)
  | .AST_Tuple elts =>
    let s := printCommaList true elts (emit s "(")
    let s := if elts.length = 1 then emit s "," else s
    emit s ")"
  | .AST_UnaryOp op_type operand =>
    emit (printVisit operand (emit (emit s (unaryOpPrefix op_type)) "(")) ")"
  | .AST_While test body orelse =>
    let s := emit (printVisit test (emit s "while ")) "\n"
    let s := indentBy (printStmtLines body (indentBy s 4)) (-4)
    match orelse with
    | [] => s
    | o :: os =>
      let s := emit (printIndent s) "else\n"
      indentBy (printStmtLines (o :: os) (indentBy s 4)) (-4)
  | .AST_With optional_vars context_expr body =>
    let s := printVisit context_expr (emit s "with ")
    let s := match optional_vars with
      | some ov => emit (printVisit ov (emit s " as ")) ":\n"
      | none => s
    indentBy (printJoined true body (indentBy s 4)) (-4)
  | .AST_Yield value =>
    let s := emit s "yield "
    match value with
    | some x => printVisit x s
    | none => s
termination_by (sizeOf n, 0)

/-- A `printIndent; stmt; "\n"` line per element (if/while/try bodies,
suites, handler bodies). -/
def printStmtLines (l : List AST) (s : PrintState) : PrintState :=
  match l with
  | [] => s
  | x :: xs => printStmtLines xs (emit (printVisit x (printIndent s)) "\n")
termination_by (sizeOf l, 1)

/-- A `"\n"; printIndent; stmt` line per element (class/function bodies). -/
def printNLIndentStmts (l : List AST) (s : PrintState) : PrintState :=
  match l with
  | [] => s
  | x :: xs => printNLIndentStmts xs (printVisit x (printIndent (emit s "\n")))
termination_by (sizeOf l, 1)

/-- A `stmt; "\n"` line per element (`visit_module`). -/
def printModuleLines (l : List AST) (s : PrintState) : PrintState :=
  match l with
  | [] => s
  | x :: xs => printModuleLines xs (emit (printVisit x s) "\n")
termination_by (sizeOf l, 1)

/-- Elements joined by `"\n"`, each preceded by `printIndent` (the
else-branch loop of `visit_if`, `visit_with` bodies). -/
def printJoined (first : Bool) (l : List AST) (s : PrintState) : PrintState :=
  match l with
  | [] => s
  | x :: xs =>
    let s := if first then s else emit s "\n"
    printJoined false xs (printVisit x (printIndent s))
termination_by (sizeOf l, 1)

/-- Comma-separated rendering with a carried `prevarg`/`i > 0` flag
(`visit_call`, `visit_delete`, `visit_list`, `visit_tuple`, ...). -/
def printCommaList (first : Bool) (l : List AST) (s : PrintState) : PrintState :=
  match l with
  | [] => s
  | x :: xs =>
    let s := if first then s else emit s ", "
    printCommaList false xs (printVisit x s)
termination_by (sizeOf l, 1)

/-- The `key ":" value` pairs of `visit_dict`, joined by `", "`. -/
def printDictPairs (first : Bool) (keys values : List AST) (s : PrintState) : PrintState :=
  match keys, values with
  | k :: ks, vl :: vs =>
    let s := if first then s else emit s ", "
    printDictPairs false ks vs (printVisit vl (emit (printVisit k s) ":"))
  | _, _ => s
termination_by (sizeOf keys + sizeOf values, 1)

/-- The loop of `visit_boolop`: each value, with the operator separator between
consecutive values.  The source emits the separator after every value but
the last; emitting it before every value but the first (the `first` flag)
produces the identical stream. -/
def printBoolOpValues (op_type : AST_TYPE) (first : Bool) (l : List AST) (s : PrintState) : PrintState :=
  match l with
  | [] => s
  | x :: xs =>
    let s := if first then s else emit s (boolOpSep op_type)
    printBoolOpValues op_type false xs (printVisit x s)
termination_by (sizeOf l, 1)

/-- The chain of `visit_compare`: for each operator, the single-space-padded
symbol from `getOpSymbol` then the matching comparator.  An unknown tag
would abort inside `getOpSymbol` in C++ (modelled by `getD ""`; no claim
reaches it); a comparator vector shorter than `ops` is out-of-bounds in
C++ and stops here. -/
def printCompareChain (ops : List AST_TYPE) (comparators : List AST) (s : PrintState) : PrintState :=
  match ops, comparators with
  | o :: os, c :: cs =>
    let s := emit s (" " ++ ((getOpSymbol o).getD "") ++ " ")
    printCompareChain os cs (printVisit c s)
  | _, _ => s
termination_by (sizeOf comparators, 1)

/-- Each element preceded by a fixed prefix (comprehension clauses get
`" "`, comprehension conditions get `" if "`). -/
def printPrefixedEach (pre : String) (l : List AST) (s : PrintState) : PrintState :=
  match l with
  | [] => s
  | x :: xs => printPrefixedEach pre xs (printVisit x (emit s pre))
termination_by (sizeOf l, 1)

/-- Decorator loop of `visit_classdef`/`visit_functiondef`:
`"@"; decorator; "\n"; printIndent` per element. -/
def printDecorators (l : List AST) (s : PrintState) : PrintState :=
  match l with
  | [] => s
  | x :: xs => printDecorators xs (printIndent (emit (printVisit x (emit s "@")) "\n"))
termination_by (sizeOf l, 1)

/-- The handler loop of `visit_tryexcept`: `printIndent; handler` per element. -/
def printIndentedEach (l : List AST) (s : PrintState) : PrintState :=
  match l with
  | [] => s
  | x :: xs => printIndentedEach xs (printVisit x (printIndent s))
termination_by (sizeOf l, 1)

/-- The target loop of `visit_assign`: `target; " = "` per element, before the
value is rendered. -/
def printAssignTargets (l : List AST) (s : PrintState) : PrintState :=
  match l with
  | [] => s
  | x :: xs => printAssignTargets xs (emit (printVisit x s) " = ")
termination_by (sizeOf l, 1)

/-- The positional-argument loop of `visit_arguments`: arguments separated
by `", "`; once `i >= nargs - ndefault` (equivalently, the remaining
argument count is at most `ndefault`), each argument is followed by `"="`
and the default at the running index `j = i - (nargs - ndefault)`. -/
def printArgsLoop (ndefault j : Nat) (first : Bool) (args defaults : List AST) (s : PrintState) : PrintState :=
  match args with
  | [] => s
  | a :: rest =>
    let s := if first then s else emit s ", "
    let s := printVisit a s
    if (a :: rest).length ≤ ndefault then
      printArgsLoop ndefault (j + 1) false rest defaults (printNthDefault j defaults (emit s "="))
    else printArgsLoop ndefault j false rest defaults s
termination_by (sizeOf args + sizeOf defaults, 1)

/-- Renders `defaults[j]` (`node->defaults[i - (nargs - ndefault)]` in the
source); an out-of-range index is out-of-bounds in C++ and renders nothing
here (unreachable for a well-formed arguments node). -/
def printNthDefault (j : Nat) (defaults : List AST) (s : PrintState) : PrintState :=
  match j, defaults with
  | 0, d :: _ => printVisit d s
  | k + 1, _ :: ds => printNthDefault k ds s
  | _, [] => s
termination_by (sizeOf defaults, 0)

end

/-- Function `print_ast` (ast.cpp:898): run an `ASTPrintVisitor` over the tree and
flush; the produced text is the stream contents. -/
def print_ast (n : AST) : String :=
  (printVisit n ⟨"", 0⟩).stream

/-- Modelled from the spec: the closed operator-tag enumeration of §4.2
(arithmetic, bitwise, shift, comparison, boolean truth-test and the other
unary tags).  The enum itself lives in the absent `core/ast.h`; this is
the set of operator tags the resolver's documentation enumerates, which is
exactly the case set of `getOpSymbol`. -/
def operatorTags : List AST_TYPE :=
  [.Add, .Sub, .Mult, .Div, .TrueDiv, .FloorDiv, .Mod, .Pow, .DivMod,
   .BitAnd, .BitOr, .BitXor, .LShift, .RShift,
   .Eq, .NotEq, .Lt, .LtE, .Gt, .GtE, .Is, .IsNot, .In, .NotIn,
   .Invert, .Not, .UAdd, .USub]

/-- The six comparison tags of the reverse swap table (spec §8). -/
def cmpSwapTags : List AST_TYPE := [.Eq, .NotEq, .Lt, .Gt, .LtE, .GtE]

/-- The non-comparison binary operator tags (arithmetic, bitwise, shift). -/
def binaryNonCmpTags : List AST_TYPE :=
  [.Add, .Sub, .Mult, .Div, .TrueDiv, .FloorDiv, .Mod, .Pow, .DivMod,
   .BitAnd, .BitOr, .BitXor, .LShift, .RShift]

/-- The node kinds whose `FlattenVisitor` handlers return `!expand_scopes`
instead of `false` (every other handler returns `false` unconditionally). -/
def pruneKinds : List AST_TYPE :=
  [.ClassDef, .For, .FunctionDef, .GeneratorExp, .Lambda, .Module]

/-- A two-child demonstration node: `1 + 2`. -/
def demoBinOp : AST := .AST_BinOp .Add (.AST_Num .INT 1 0 0) (.AST_Num .INT 2 0 0)

/-- Tree `If(test=Name("a"), body=[Pass], orelse=[If(test=Name("b"), body=[Pass],
orelse=[])])`: an if whose sole else-clause is a single nested if. -/
def c9Tree : AST :=
  .AST_If (.AST_Name "a") [.AST_Pass] [.AST_If (.AST_Name "b") [.AST_Pass] []]

/-! Supporting lemmas shared by the claim theorems. -/

theorem acceptList_append (v : ASTVisitor σ) (l₁ l₂ : List AST) (s : σ) :
    acceptList v (l₁ ++ l₂) s = acceptList v l₂ (acceptList v l₁ s) := by
  induction l₁ generalizing s with
  | nil => simp [acceptList]
  | cons x xs ih => simp [acceptList, ih]

theorem acceptList_toList (v : ASTVisitor σ) (o : Option AST) (s : σ) :
    acceptList v o.toList s = acceptOpt v o s := by
  cases o <;> simp [acceptList, acceptOpt]

theorem acceptList_interleavePairs (v : ASTVisitor σ) (ks vs : List AST) (s : σ) :
    acceptList v (interleavePairs ks vs) s = acceptPairs v ks vs s := by
  induction ks generalizing vs s with
  | nil => cases vs <;> simp [interleavePairs, acceptList, acceptPairs]
  | cons k ks ih => cases vs <;> simp [interleavePairs, acceptList, acceptPairs, ih]

set_option maxHeartbeats 8000000 in
/-- Joint characterization of a traversal by the order-recording stub
visitor: every `accept` run appends exactly the pruned pre-order trace. -/
theorem accept_traceVisitor_full (g : AST → Bool) :
    (∀ n s, accept (traceVisitor g) n s = s ++ traceF g n)
    ∧ (∀ ks vs s, acceptPairs (traceVisitor g) ks vs s = s ++ tracePairsF g ks vs)
    ∧ (∀ l s, acceptList (traceVisitor g) l s = s ++ traceListF g l)
    ∧ (∀ o s, acceptOpt (traceVisitor g) o s = s ++ traceOptF g o) := by
  apply accept.mutual_induct (traceVisitor g)
    (fun n s => accept (traceVisitor g) n s = s ++ traceF g n)
    (fun ks vs s => acceptPairs (traceVisitor g) ks vs s = s ++ tracePairsF g ks vs)
    (fun l s => acceptList (traceVisitor g) l s = s ++ traceListF g l)
    (fun o s => acceptOpt (traceVisitor g) o s = s ++ traceOptF g o)
  all_goals intros
  all_goals simp_all +zetaDelta [accept, acceptList, acceptOpt, acceptPairs, traceF, traceListF,
    traceOptF, tracePairsF, traceVisitor, List.append_assoc]

set_option maxHeartbeats 8000000 in
/-- Joint characterization of a `FlattenVisitor` traversal: it appends the
pre-order trace pruned at the kinds whose handlers return `!expand_scopes`. -/
theorem accept_flattenVisitor_full (e : Bool) :
    (∀ n s, accept (flattenVisitor e) n s = s ++ traceF (flattenPrunes e) n)
    ∧ (∀ ks vs s, acceptPairs (flattenVisitor e) ks vs s = s ++ tracePairsF (flattenPrunes e) ks vs)
    ∧ (∀ l s, acceptList (flattenVisitor e) l s = s ++ traceListF (flattenPrunes e) l)
    ∧ (∀ o s, acceptOpt (flattenVisitor e) o s = s ++ traceOptF (flattenPrunes e) o) := by
  apply accept.mutual_induct (flattenVisitor e)
    (fun n s => accept (flattenVisitor e) n s = s ++ traceF (flattenPrunes e) n)
    (fun ks vs s => acceptPairs (flattenVisitor e) ks vs s = s ++ tracePairsF (flattenPrunes e) ks vs)
    (fun l s => acceptList (flattenVisitor e) l s = s ++ traceListF (flattenPrunes e) l)
    (fun o s => acceptOpt (flattenVisitor e) o s = s ++ traceOptF (flattenPrunes e) o)
  all_goals intros
  all_goals simp_all +zetaDelta [accept, acceptList, acceptOpt, acceptPairs, traceF, traceListF,
    traceOptF, tracePairsF, flattenVisitor, flattenPrunes, List.append_assoc]

theorem self_mem_traceF (g : AST → Bool) (n : AST) : n ∈ traceF g n := by
  rw [traceF.eq_def]; exact List.mem_cons_self _ _

theorem mem_traceListF (g : AST → Bool) {b : AST} {l : List AST} (h : b ∈ l) :
    b ∈ traceListF g l := by
  induction l with
  | nil => cases h
  | cons x xs ih =>
    rw [traceListF.eq_def]
    rcases List.mem_cons.1 h with rfl | hx
    · exact List.mem_append_left _ (self_mem_traceF g b)
    · exact List.mem_append_right _ (ih hx)

/-! The claim theorems. -/

/-- C1 (amended): for every node and every visitor, the dispatch entry
point `accept` invokes the handler matching the node's kind (`dispatch`);
if the returned boolean is `true` it visits none of the node's children
(the traversal ends in exactly the handler's resulting state), and if it
is `false` it visits all children in the fixed per-kind source-evaluation
order given by `children`.  The returned boolean is thus a skip signal:
the claim's polarity (false prunes, true descends) is inverted relative to
the code. -/
theorem accept_eq_dispatch_children (v : ASTVisitor σ) (n : AST) (s : σ) :
    accept v n s =
      if (dispatch v n s).2 then (dispatch v n s).1
      else acceptList v (children n) (dispatch v n s).1 := by
  cases n <;>
    simp [accept, dispatch, children, acceptList, acceptOpt,
      acceptList_append, acceptList_toList, acceptList_interleavePairs]

/-- C1 (counterexample): with the call-recording stub visitor whose
handlers all return `false`, `accept` on the two-child node `1 + 2` records
the node and both children (three visits), so a `false` return does not
cause zero descendant visits; with handlers all returning `true`, only the
node itself is recorded, so a `true` return does not visit the children.
Both halves of the claim's stated polarity are therefore false. -/
theorem accept_skip_polarity_cx :
    accept (traceVisitor (fun _ => false)) demoBinOp [] ≠ [demoBinOp]
    ∧ accept (traceVisitor (fun _ => true)) demoBinOp [] = [demoBinOp] := by
  constructor
  · simp [demoBinOp, accept, traceVisitor, acceptList, acceptOpt]
  · simp [demoBinOp, accept, traceVisitor, acceptList, acceptOpt]

/-- C2 (counterexample): `Is`, `IsNot` and `NotIn` are comparison tags of
the operator enumeration, yet `getOpName` reaches its fatal-abort branch
(modelled `none`) on each of them, contradicting "the fatal-abort branch
is never reached for any tag of the enumeration". -/
theorem opResolver_Is_aborts :
    AST_TYPE.Is ∈ operatorTags ∧ AST_TYPE.IsNot ∈ operatorTags ∧ AST_TYPE.NotIn ∈ operatorTags
    ∧ getOpName .Is = none ∧ getOpName .IsNot = none ∧ getOpName .NotIn = none := by decide

/-- C2 (amended): for every tag of the operator enumeration, `getOpSymbol`
returns a non-empty display symbol; `getOpName` returns a non-empty
special-method name for every tag except the identity comparisons
(`Is`, `IsNot`) and negated containment (`NotIn`), on which it reaches the
fatal-abort branch instead. -/
theorem opResolver_totality_amended :
    (operatorTags.all fun t => ((getOpSymbol t).getD "") != "") = true
    ∧ (operatorTags.all fun t =>
        if t ∈ ([.Is, .IsNot, .NotIn] : List AST_TYPE) then (getOpName t).isNone
        else ((getOpName t).getD "") != "") = true := by decide

/-- C3: requesting a reverse-operand name for an identity comparison
(`Is` or `IsNot`) reaches the fatal abort inside `getOpName` (the swap
table rejects the tag, and the mechanical path then calls `getOpName`,
which aborts), modelled as `none` — no name and no silent default. -/
theorem getReverseOpName_identity_fatal :
    getReverseOpName .Is = none ∧ getReverseOpName .IsNot = none := by decide

/-- C4: `getReverseCmpOp` is exactly the finite swap table
Eq→Eq, NotEq→NotEq, Lt→Gt, Gt→Lt, LtE→GtE, GtE→LtE (each with the success
flag set), and it is an involution on the six comparison tags. -/
theorem getReverseCmpOp_table_involution :
    getReverseCmpOp .Eq = (.Eq, true) ∧ getReverseCmpOp .NotEq = (.NotEq, true)
    ∧ getReverseCmpOp .Lt = (.Gt, true) ∧ getReverseCmpOp .Gt = (.Lt, true)
    ∧ getReverseCmpOp .LtE = (.GtE, true) ∧ getReverseCmpOp .GtE = (.LtE, true)
    ∧ (cmpSwapTags.all fun t => (getReverseCmpOp (getReverseCmpOp t).1).1 == t) = true := by
  decide

/-- C5: for every operator tag `getOpName` accepts, the special-method
name starts with the leading double underscore and the in-place variant
equals that name with `i` inserted immediately after it
(`__add__` → `__iadd__`); for every tag `getOpName` rejects,
`getInplaceOpName` aborts as well (the derivation is mechanical, not a
second table). -/
theorem getInplaceOpName_derivation :
    (operatorTags.all fun t =>
      match getOpName t with
      | some n => (n.take 2 == "__") && (getInplaceOpName t == some ("__" ++ "i" ++ n.drop 2))
      | none => (getInplaceOpName t).isNone) = true := by decide

/-- C6: for every non-comparison binary operator tag (arithmetic, bitwise,
shift), the reverse-operand name equals the special-method name with `r`
inserted immediately after the leading double underscore
(`__add__` → `__radd__`). -/
theorem getReverseOpName_derivation :
    (binaryNonCmpTags.all fun t =>
      match getOpName t, getReverseOpName t with
      | some n, some r => (n.take 2 == "__") && (r == "__" ++ "r" ++ n.drop 2)
      | _, _ => false) = true := by decide

/-- C7: for every assignment node whose handler requests descent (returns
`false`), an order-recording traversal of `AST_Assign::accept` records the
assignment node, then the entire value subtree, then the target subtrees
left-to-right in list order — so the value is observed before any
target. -/
theorem assign_accept_order (g : AST → Bool) (targets : List AST) (value : AST)
    (h : g (.AST_Assign targets value) = false) :
    accept (traceVisitor g) (.AST_Assign targets value) []
      = .AST_Assign targets value :: (traceF g value ++ traceListF g targets) := by
  have h1 := (accept_traceVisitor_full g).1 (.AST_Assign targets value) []
  rw [traceF.eq_def] at h1
  simp [h] at h1
  simpa using h1

/-- C7 (witness): for value `V = Name "v"` and targets
`[Name "t1", Name "t2"]`, the order-recording visitor observes
`V` before `T1` before `T2`. -/
theorem assign_accept_order_witness :
    accept (traceVisitor (fun _ => false))
      (.AST_Assign [.AST_Name "t1", .AST_Name "t2"] (.AST_Name "v")) []
      = [.AST_Assign [.AST_Name "t1", .AST_Name "t2"] (.AST_Name "v"),
         .AST_Name "v", .AST_Name "t1", .AST_Name "t2"] := by
  have h := assign_accept_order (fun _ => false) [.AST_Name "t1", .AST_Name "t2"]
    (.AST_Name "v") rfl
  rw [h]
  simp [traceF, traceListF]

/-- C8: flattening a single function-definition root with
`expand_scopes = false` yields exactly the function node itself and in
particular no node of its body, while flattening the same root with
`expand_scopes = true` contains at least one node of its (non-empty)
body. -/
theorem flatten_functiondef_scopes (name : String) (decorator_list : List AST) (args : AST)
    (body : List AST) (h : body ≠ []) :
    (flatten [.AST_FunctionDef name decorator_list args body] false
        = [.AST_FunctionDef name decorator_list args body]
      ∧ ∀ b ∈ body, b ∉ flatten [.AST_FunctionDef name decorator_list args body] false)
    ∧ ∃ b ∈ body, b ∈ flatten [.AST_FunctionDef name decorator_list args body] true := by
  have hf := (accept_flattenVisitor_full false).1 (.AST_FunctionDef name decorator_list args body) []
  have ht := (accept_flattenVisitor_full true).1 (.AST_FunctionDef name decorator_list args body) []
  rw [traceF.eq_def] at hf ht
  simp only [flattenPrunes, Bool.not_false, Bool.not_true, if_true, if_false,
    List.nil_append, reduceIte] at hf ht
  refine ⟨⟨?_, ?_⟩, ?_⟩
  · simp only [flatten, List.foldl, hf]
  · intro b hb hmem
    simp only [flatten, List.foldl, hf, List.mem_singleton] at hmem
    have hsz := List.sizeOf_lt_of_mem hb
    subst hmem
    simp only [AST.AST_FunctionDef.sizeOf_spec] at hsz
    omega
  · obtain ⟨b, bs, rfl⟩ := List.exists_cons_of_ne_nil h
    refine ⟨b, List.mem_cons_self _ _, ?_⟩
    simp only [flatten, List.foldl, ht]
    exact List.mem_cons_of_mem _
      (List.mem_append_right _ (mem_traceListF _ (List.mem_cons_self _ _)))

/-- C8 (witness): the concrete function definition `def f(): pass`. -/
theorem flatten_functiondef_scopes_witness :
    (flatten [.AST_FunctionDef "f" [] (.AST_arguments [] [] none none) [.AST_Pass]] false
        = [.AST_FunctionDef "f" [] (.AST_arguments [] [] none none) [.AST_Pass]]
      ∧ ∀ b ∈ ([.AST_Pass] : List AST),
          b ∉ flatten [.AST_FunctionDef "f" [] (.AST_arguments [] [] none none) [.AST_Pass]] false)
    ∧ ∃ b ∈ ([.AST_Pass] : List AST),
        b ∈ flatten [.AST_FunctionDef "f" [] (.AST_arguments [] [] none none) [.AST_Pass]] true :=
  flatten_functiondef_scopes "f" [] (.AST_arguments [] [] none none) [.AST_Pass] (by simp)

/-- C9 (amended): printing the if/elif tree renders the elif collapse with
no added indentation, followed by the newline every rendered body
statement line is terminated with:
`"if a:\n    pass\nelif b:\n    pass\n"`. -/
theorem print_if_elif_amended :
    print_ast c9Tree = "if a:\n    pass\nelif b:\n    pass\n" := by
  simp only [print_ast, c9Tree, printVisit.eq_def, printStmtLines.eq_def, printJoined.eq_def,
    printIndent, emit, indentBy, AST.type]
  norm_num
  rfl

/-- C9 (counterexample): the renderer's output on the claimed tree is not
the claimed text — the code appends a `"\n"` after the final `pass` that
the claim's expected string lacks. -/
theorem print_if_elif_cx :
    print_ast c9Tree ≠ "if a:\n    pass\nelif b:\n    pass" := by
  have h : print_ast c9Tree = "if a:\n    pass\nelif b:\n    pass\n" := by
    simp only [print_ast, c9Tree, printVisit.eq_def, printStmtLines.eq_def, printJoined.eq_def,
      printIndent, emit, indentBy, AST.type]
    norm_num
    rfl
  rw [h]; decide

/-- C10: a `FlattenVisitor` handler returns the prune signal exactly when
`expand_scopes` is false and the node's kind is one of class definition,
for-loop, function definition, generator expression, lambda, module — so
a for-loop is pruned despite introducing no lexical scope, and list, set
and dict comprehension kinds are never pruned under either flag value. -/
theorem flattenVisitor_prune_set (expand_scopes : Bool) (n : AST) (s : List AST) :
    (dispatch (flattenVisitor expand_scopes) n s).2 = true
      ↔ expand_scopes = false ∧ n.type ∈ pruneKinds := by
  cases expand_scopes <;> cases n <;>
    simp [dispatch, flattenVisitor, AST.type, pruneKinds]

end pyston
